import Mathlib

/-!
Shallow embedding of the security-group rule classifier and the subnet
splitter of netkit.py, with theorems checking the specification's claims
about them.
-/

namespace Netkit

/-- A classified finding: the dict built at netkit.py lines 114-148.
All fields are plain strings in the source. -/
structure Issue where
  severity : String
  sg_id : String
  sg_name : String
  protocol : String
  port : String
  source : String
  description : String
  deriving DecidableEq, Repr

/-- The fixed sensitive-port table of netkit.py lines 93-96, in source
order (Python dicts iterate in insertion order). -/
def risky_ports : List (Int × String) :=
  [(22, "SSH"), (3389, "RDP"), (3306, "MySQL"), (5432, "PostgreSQL"),
   (1433, "MSSQL"), (27017, "MongoDB"), (6379, "Redis"), (9200, "Elasticsearch")]

/-- Python truthiness of an optional integer field: None and 0 are both
falsy.  Models the bare-value tests of from_port and to_port at netkit.py
lines 125 and 137. -/
def pyTruthy : Option Int → Bool
  | none => false
  | some n => n != 0

/-- The port descriptor f-string of netkit.py lines 131 and 145. -/
def portLabel (port : Int) (service : String) : String :=
  toString port ++ " (" ++ service ++ ")"

/-- Python str.endswith over the character data of the strings (used by
cidr.endswith checks at netkit.py line 136). -/
def strEndsWith (s post : String) : Bool :=
  decide (post.data.length ≤ s.data.length) &&
  decide (s.data.drop (s.data.length - post.data.length) = post.data)

/-- Issues appended for one (rule, source CIDR) pair: the body of the inner
loop of check_compliance, netkit.py lines 112-148.  An absent FromPort or
ToPort key is modelled as none; the guards named `if from_port and to_port`
in the source use Python truthiness (pyTruthy). -/
def rangeIssues (sg_id sg_name protocol : String) (from_port to_port : Option Int)
    (cidr : String) : List Issue :=
  if cidr = "0.0.0.0/0" then
    if protocol = "-1" then
      [{ severity := "CRITICAL", sg_id := sg_id, sg_name := sg_name,
         protocol := "ALL", port := "ALL", source := cidr,
         description := "All traffic allowed from internet" }]
    else
      risky_ports.flatMap fun ps =>
        if pyTruthy from_port ∧ pyTruthy to_port ∧
            from_port.getD 0 ≤ ps.1 ∧ ps.1 ≤ to_port.getD 0 then
          [{ severity := "HIGH", sg_id := sg_id, sg_name := sg_name,
             protocol := protocol, port := portLabel ps.1 ps.2, source := cidr,
             description := ps.2 ++ " exposed to internet" }]
        else []
  else if strEndsWith cidr ("/8") || strEndsWith cidr ("/16") then
    if pyTruthy from_port ∧ pyTruthy to_port then
      risky_ports.flatMap fun ps =>
        if from_port.getD 0 ≤ ps.1 ∧ ps.1 ≤ to_port.getD 0 then
          [{ severity := "MEDIUM", sg_id := sg_id, sg_name := sg_name,
             protocol := protocol, port := portLabel ps.1 ps.2, source := cidr,
             description := ps.2 ++ " exposed to large CIDR block" }]
        else []
    else []
  else []

/-- One entry of a rule's IpRanges list; CidrIp is read with a default of
the empty string at netkit.py line 110. -/
structure IpRange where
  cidrIp : Option String
  deriving DecidableEq, Repr

/-- One ingress rule (an IpPermissions entry).  Ipv6Ranges is present in
the EC2 response but check_compliance never reads it: only IpRanges is
iterated (netkit.py line 109). -/
structure Rule where
  ipProtocol : Option String
  fromPort : Option Int
  toPort : Option Int
  ipRanges : List IpRange
  ipv6Ranges : List String
  deriving DecidableEq, Repr

/-- A security group as consumed by check_compliance (netkit.py
lines 100-102). -/
structure SecurityGroup where
  groupId : String
  groupName : String
  ipPermissions : List Rule
  deriving DecidableEq, Repr

/-- Issues for one rule, netkit.py lines 104-148 (IpProtocol defaults to
"-1", CidrIp to the empty string). -/
def ruleIssues (sg_id sg_name : String) (rule : Rule) : List Issue :=
  rule.ipRanges.flatMap fun r =>
    rangeIssues sg_id sg_name (rule.ipProtocol.getD ("-1")) rule.fromPort
      rule.toPort (r.cidrIp.getD (""))

/-- Issues for one security group (netkit.py lines 100-148). -/
def sgIssues (sg : SecurityGroup) : List Issue :=
  sg.ipPermissions.flatMap (ruleIssues sg.groupId sg.groupName)

/-- All issues in encounter order, before sorting (netkit.py
lines 98-148). -/
def collectIssues (sgs : List SecurityGroup) : List Issue :=
  sgs.flatMap sgIssues

/-- severity_order.get(severity, 3) of netkit.py lines 150-151. -/
def severityRank (i : Issue) : Nat :=
  if i.severity = "CRITICAL" then 0
  else if i.severity = "HIGH" then 1
  else if i.severity = "MEDIUM" then 2
  else 3

/-- issues.sort(key=...) at netkit.py line 151 is Python's stable sort by
severity rank; modelled by mergeSort with the same key, which is the
(unique) stable sort for that key. -/
def sortIssues (issues : List Issue) : List Issue :=
  issues.mergeSort fun a b => decide (severityRank a ≤ severityRank b)

/-- Full classification: collect in encounter order, then stable-sort by
severity. -/
def classifyIssues (sgs : List SecurityGroup) : List Issue :=
  sortIssues (collectIssues sgs)

/-- Count of issues with a given severity (netkit.py lines 153-155). -/
def countSeverity (issues : List Issue) (sev : String) : Nat :=
  issues.countP fun i => i.severity == sev

/-- Exit status of the compliance command as a function of the strict flag
and the classified issues (netkit.py lines 191-196). -/
def complianceExit (strict : Bool) (issues : List Issue) : Nat :=
  if strict then
    if countSeverity issues ("CRITICAL") > 0 then 2
    else if countSeverity issues ("HIGH") > 0 then 1
    else 0
  else 0

/-- An IPv4 network value: 32-bit network address and prefix length
(the ipaddress.IPv4Network built at netkit.py line 452). -/
structure Ipv4Network where
  addr : Nat
  plen : Nat
  deriving DecidableEq, Repr

/-- Python str.split with a one-character separator, over character
lists; an empty string yields one empty part, as in Python. -/
def splitOnChar (c : Char) : List Char → List (List Char)
  | [] => [[]]
  | x :: xs =>
    let r := splitOnChar c xs
    if x = c then [] :: r
    else
      match r with
      | [] => [[x]]
      | h :: t => (x :: h) :: t

/-- Decimal numeral over ascii digits (Python int() on a digit string). -/
def parseDecimal (cs : List Char) : Option Nat :=
  if cs.length = 0 then none
  else if cs.all Char.isDigit then
    some (cs.foldl (fun a c => a * 10 + (c.toNat - 48)) 0)
  else none

/-- One decimal octet as accepted by Python's ipaddress module: one to
three ascii digits, no leading zero, value at most 255. -/
def parseOctet (cs : List Char) : Option Nat :=
  if cs.length = 0 ∨ 3 < cs.length then none
  else if 1 < cs.length ∧ cs.head? = some '0' then none
  else
    match parseDecimal cs with
    | none => none
    | some v => if v ≤ 255 then some v else none

/-- Dotted-quad IPv4 address to its 32-bit value. -/
def parseQuad (cs : List Char) : Option Nat :=
  match (splitOnChar '.' cs).mapM parseOctet with
  | some [a, b, c, d] => some (((a * 256 + b) * 256 + c) * 256 + d)
  | _ => none

/-- ipaddress.ip_network (netkit.py line 452) restricted to IPv4: dotted
quad with an optional /p part, strict mode (host bits must be zero); a
bare address gets prefix length 32. -/
def parseCidr (s : String) : Option Ipv4Network :=
  match splitOnChar '/' s.data with
  | [a] =>
    match parseQuad a with
    | some v => some { addr := v, plen := 32 }
    | none => none
  | [a, p] =>
    match parseQuad a, parseDecimal p with
    | some v, some q =>
      if q ≤ 32 ∧ v % 2 ^ (32 - q) = 0 then some { addr := v, plen := q }
      else none
    | _, _ => none
  | _ => none

/-- Fuel-indexed ceiling base-2 logarithm: 0 for n ≤ 1, and
1 + clog2 of the rounded-up half otherwise. -/
def clog2Aux : Nat → Nat → Nat
  | 0, _ => 0
  | fuel + 1, n => if n ≤ 1 then 0 else clog2Aux fuel ((n + 1) / 2) + 1

/-- math.ceil(math.log2(count)) of netkit.py line 458, exact for
count ≥ 1 (the doubles involved are exact over the reachable range). -/
def ceilLog2 (n : Nat) : Nat := clog2Aux n n

/-- A subnet row printed at netkit.py line 476: network address, prefix
length, and the usable host count 2^(32-new_prefix) - 2. -/
structure SubnetAllocation where
  addr : Nat
  plen : Nat
  hosts : Int
  deriving DecidableEq, Repr

/-- Failure modes of the subnet command: the ValueError from ip_network
(netkit.py lines 453-455) and the fixed /28 ceiling (lines 461-463).
The limitExceeded payload is the printed message. -/
inductive SplitError where
  | invalidInput : SplitError
  | limitExceeded : String → SplitError
  deriving DecidableEq, Repr

/-- calculate_subnets, netkit.py lines 443-480, as a function from the
cidr argument and the count to either an error or the new prefix length
together with the printed allocations.  network.subnets(new_prefix) yields
the 2^bits_needed subnets in ascending address order and [:count] keeps
the first count of them. -/
def calculateSubnets (cidr : String) (count : Nat) :
    Except SplitError (Nat × List SubnetAllocation) :=
  match parseCidr cidr with
  | none => .error .invalidInput
  | some nw =>
    let bits_needed := ceilLog2 count
    let newPlen := nw.plen + bits_needed
    if newPlen > 28 then
      .error (.limitExceeded
        ("Too many subnets - would result in /" ++ toString newPlen ++ " (max /28)"))
    else
      let new_hosts : Int := 2 ^ (32 - newPlen) - 2
      let subs := (List.range (2 ^ bits_needed)).map fun i =>
        (⟨nw.addr + i * 2 ^ (32 - newPlen), newPlen, new_hosts⟩ : SubnetAllocation)
      .ok (newPlen, subs.take count)

/-- Process exit status of the subnet command: 0 on success, 1 on either
error (netkit.py lines 455, 463, 480). -/
def splitExit (r : Except SplitError (Nat × List SubnetAllocation)) : Nat :=
  match r with
  | .error _ => 1
  | .ok _ => 0

/-- Appending a singleton under a decidable guard is mapping over the
filtered list (the append-inside-a-guarded-loop shape of netkit.py
lines 124-134 and 138-148). -/
theorem flatMap_if_singleton {α β : Type} (p : α → Prop) [DecidablePred p] (f : α → β) :
    ∀ l : List α,
      (l.flatMap fun x => if p x then [f x] else []) =
        (l.filter fun x => decide (p x)).map f
  | [] => rfl
  | x :: xs => by
    by_cases h : p x <;>
      simp [List.flatMap_cons, List.filter_cons, h, flatMap_if_singleton p f xs]

/-- clog2Aux with enough fuel computes the least exponent b with
n ≤ 2 ^ b. -/
theorem clog2Aux_spec : ∀ (fuel n : Nat), n ≤ fuel →
    n ≤ 2 ^ clog2Aux fuel n ∧ ∀ k, n ≤ 2 ^ k → clog2Aux fuel n ≤ k := by
  intro fuel
  induction fuel with
  | zero =>
    intro n hn
    have : n = 0 := by omega
    subst this
    exact ⟨by simp [clog2Aux], fun k _ => by simp [clog2Aux]⟩
  | succ fuel ih =>
    intro n hn
    by_cases h1 : n ≤ 1
    · refine ⟨?_, fun k _ => ?_⟩
      · simp [clog2Aux, h1]
      · simp [clog2Aux, h1]
    · have h2 : 2 ≤ n := by omega
      have hm : (n + 1) / 2 ≤ fuel := by omega
      obtain ⟨ha, hmin⟩ := ih ((n + 1) / 2) hm
      have heq : clog2Aux (fuel + 1) n = clog2Aux fuel ((n + 1) / 2) + 1 := by
        simp [clog2Aux, h1]
      rw [heq]
      constructor
      · have hP : (n + 1) / 2 ≤ 2 ^ clog2Aux fuel ((n + 1) / 2) := ha
        rw [pow_succ]
        omega
      · intro k hk
        have hk1 : 1 ≤ k := by
          by_contra hc
          have : k = 0 := by omega
          subst this
          simp at hk
          omega
        have hk2 : 2 ^ (k - 1) * 2 = 2 ^ k := by
          rw [← pow_succ]
          congr 1
          omega
        have hhalf : (n + 1) / 2 ≤ 2 ^ (k - 1) := by omega
        have := hmin (k - 1) hhalf
        omega

/-- ceilLog2 n bits always suffice to index n values. -/
theorem ceilLog2_le_pow (n : Nat) : n ≤ 2 ^ ceilLog2 n :=
  (clog2Aux_spec n n le_rfl).1

/-- ceilLog2 is the least exponent whose power of two reaches n, which is
exactly math.ceil(math.log2 n) for n ≥ 1. -/
theorem ceilLog2_min (n k : Nat) (h : n ≤ 2 ^ k) : ceilLog2 n ≤ k :=
  (clog2Aux_spec n n le_rfl).2 k h

/-- The severity-rank comparison used by the sort is transitive. -/
theorem rankLe_trans : ∀ a b c : Issue,
    decide (severityRank a ≤ severityRank b) →
    decide (severityRank b ≤ severityRank c) →
    decide (severityRank a ≤ severityRank c) := by
  intro a b c hab hbc
  simp at hab hbc ⊢
  omega

/-- The severity-rank comparison used by the sort is total. -/
theorem rankLe_total : ∀ a b : Issue,
    decide (severityRank a ≤ severityRank b) ||
      decide (severityRank b ≤ severityRank a) := by
  intro a b
  rcases Nat.le_total (severityRank a) (severityRank b) with h | h <;> simp [h]

/-- The sorted issue list is pairwise nondecreasing in severity rank. -/
theorem sortIssues_sorted (l : List Issue) :
    (sortIssues l).Pairwise fun a b => severityRank a ≤ severityRank b := by
  have h := List.sorted_mergeSort rankLe_trans rankLe_total l
  exact h.imp (by intro a b hab; simpa using hab)

/-- Stability of the sort: for every rank value, the issues of that rank
appear in the sorted output in their original relative order. -/
theorem sortIssues_filter_rank (l : List Issue) (r : Nat) :
    (sortIssues l).filter (fun i => severityRank i == r) =
      l.filter (fun i => severityRank i == r) := by
  set p : Issue → Bool := fun i => severityRank i == r with hp
  have hpair : (l.filter p).Pairwise
      fun a b => decide (severityRank a ≤ severityRank b) = true := by
    apply List.pairwise_of_forall_mem_list
    intro a ha b hb
    have ha' := (List.mem_filter.mp ha).2
    have hb' := (List.mem_filter.mp hb).2
    simp [hp] at ha' hb'
    simp [ha', hb']
  have h1 : List.Sublist (l.filter p) (sortIssues l) :=
    List.sublist_mergeSort rankLe_trans rankLe_total hpair (List.filter_sublist l)
  have h2 : (l.filter p).filter p = l.filter p := by
    rw [List.filter_filter]
    simp
  have h3 : List.Sublist (l.filter p) ((sortIssues l).filter p) := by
    have h4 := h1.filter p
    rwa [h2] at h4
  have hperm : List.Perm ((sortIssues l).filter p) (l.filter p) :=
    (List.mergeSort_perm l _).filter p
  exact (h3.eq_of_length hperm.length_eq.symm).symm

/-- C1: for every (rule, source) pair whose source CIDR is exactly
"0.0.0.0/0" and whose protocol is "-1", classification produces exactly
one CRITICAL issue for that pair, with port descriptor "ALL", and no HIGH
or MEDIUM issue for that pair — whatever the port bounds are
(netkit.py lines 112-122). -/
theorem c1_all_protocols_open_world (sg_id sg_name : String)
    (from_port to_port : Option Int) :
    rangeIssues sg_id sg_name ("-1") from_port to_port ("0.0.0.0/0") =
      [{ severity := "CRITICAL", sg_id := sg_id, sg_name := sg_name,
         protocol := "ALL", port := "ALL", source := "0.0.0.0/0",
         description := "All traffic allowed from internet" }] := by
  simp [rangeIssues]

/-- C2 counterexample: with source "0.0.0.0/0", protocol "tcp" (≠ "-1")
and both port bounds present as fromPort = 0, toPort = 30, the sensitive
port 22 lies within [0, 30], yet classification yields no issue at all —
the bound guard tests Python truthiness, and 0 is falsy.  This refutes
the claim that one HIGH issue arises per in-range sensitive port whenever
both bounds are present. -/
theorem c2_counterexample :
    (Option.isSome (some (0 : Int)) = true ∧ Option.isSome (some (30 : Int)) = true) ∧
    ((0 : Int) ≤ 22 ∧ (22 : Int) ≤ 30) ∧
    ("tcp" : String) ≠ "-1" ∧
    rangeIssues ("sg-1") ("web") ("tcp") (some 0) (some 30) ("0.0.0.0/0") = [] := by
  refine ⟨⟨rfl, rfl⟩, ⟨by norm_num, by norm_num⟩, by decide, ?_⟩
  decide

/-- C2 amended: for every rule with source CIDR exactly "0.0.0.0/0",
protocol different from "-1", and both port bounds present and nonzero
(Python-truthy), classification yields exactly one HIGH issue per
sensitive port lying within [fromPort, toPort], in table order, and
nothing else; with bounds [20, 25] this is the single SSH issue for
port 22 (netkit.py lines 123-134). -/
theorem c2_amended_high_per_port (sg_id sg_name protocol : String) (f t : Int)
    (hp : protocol ≠ "-1") (hf : f ≠ 0) (ht : t ≠ 0) :
    rangeIssues sg_id sg_name protocol (some f) (some t) ("0.0.0.0/0") =
      (risky_ports.filter fun ps => decide (f ≤ ps.1 ∧ ps.1 ≤ t)).map
        (fun ps =>
          { severity := "HIGH", sg_id := sg_id, sg_name := sg_name,
            protocol := protocol, port := portLabel ps.1 ps.2,
            source := "0.0.0.0/0",
            description := ps.2 ++ " exposed to internet" }) := by
  have hf' : (f != 0) = true := by simpa using hf
  have ht' : (t != 0) = true := by simpa using ht
  unfold rangeIssues
  rw [if_pos rfl, if_neg hp]
  simp only [pyTruthy, hf', ht', Option.getD_some, true_and]
  exact flatMap_if_singleton (fun ps => f ≤ ps.1 ∧ ps.1 ≤ t) _ risky_ports

/-- Witness for C2 amended: the [20, 25] bounds of the claim produce
exactly the SSH issue. -/
theorem c2_amended_high_per_port_witness :
    ("tcp" : String) ≠ "-1" ∧ (20 : Int) ≠ 0 ∧ (25 : Int) ≠ 0 ∧
    rangeIssues ("sg-1") ("web") ("tcp") (some 20) (some 25) ("0.0.0.0/0") =
      [{ severity := "HIGH", sg_id := "sg-1", sg_name := "web",
         protocol := "tcp", port := "22 (SSH)", source := "0.0.0.0/0",
         description := "SSH exposed to internet" }] := by
  refine ⟨by decide, by norm_num, by norm_num, ?_⟩
  rw [c2_amended_high_per_port ("sg-1") ("web") ("tcp") 20 25 (by decide)
    (by norm_num) (by norm_num)]
  decide

/-- C3 counterexample: with source "10.0.0.0/8" (which ends in "/8" and is
not "0.0.0.0/0") and both port bounds present as fromPort = 0,
toPort = 65535, every sensitive port lies within the bounds, yet
classification yields no issue at all — the bound guard tests Python
truthiness and 0 is falsy.  This refutes the claim that one MEDIUM issue
arises per in-range sensitive port whenever both bounds are present. -/
theorem c3_counterexample :
    ("10.0.0.0/8" : String) ≠ "0.0.0.0/0" ∧
    strEndsWith ("10.0.0.0/8") ("/8") = true ∧
    (Option.isSome (some (0 : Int)) = true ∧ Option.isSome (some (65535 : Int)) = true) ∧
    ((0 : Int) ≤ 3306 ∧ (3306 : Int) ≤ 65535) ∧
    rangeIssues ("sg-1") ("db") ("tcp") (some 0) (some 65535) ("10.0.0.0/8") = [] := by
  refine ⟨by decide, by decide, ⟨rfl, rfl⟩, ⟨by norm_num, by norm_num⟩, ?_⟩
  decide

/-- C3 amended: for every rule whose source CIDR is not "0.0.0.0/0": if
the CIDR string ends textually in "/8" or "/16" and both port bounds are
present and nonzero (Python-truthy), classification yields exactly one
MEDIUM issue per sensitive port within the bounds, in table order; any
other source yields no issue (netkit.py lines 136-148). -/
theorem c3_amended_medium_large_blocks (sg_id sg_name protocol : String)
    (f t : Int) (cidr : String) (h0 : cidr ≠ "0.0.0.0/0") :
    ((strEndsWith cidr ("/8") || strEndsWith cidr ("/16")) = true →
      f ≠ 0 → t ≠ 0 →
      rangeIssues sg_id sg_name protocol (some f) (some t) cidr =
        (risky_ports.filter fun ps => decide (f ≤ ps.1 ∧ ps.1 ≤ t)).map
          (fun ps =>
            { severity := "MEDIUM", sg_id := sg_id, sg_name := sg_name,
              protocol := protocol, port := portLabel ps.1 ps.2,
              source := cidr,
              description := ps.2 ++ " exposed to large CIDR block" })) ∧
    ((strEndsWith cidr ("/8") || strEndsWith cidr ("/16")) = false →
      ∀ fp tp : Option Int, rangeIssues sg_id sg_name protocol fp tp cidr = []) := by
  constructor
  · intro hsuf hf ht
    have hf' : (f != 0) = true := by simpa using hf
    have ht' : (t != 0) = true := by simpa using ht
    unfold rangeIssues
    rw [if_neg h0, if_pos hsuf, if_pos (by simp [pyTruthy, hf', ht'])]
    simp only [Option.getD_some]
    exact flatMap_if_singleton (fun ps => f ≤ ps.1 ∧ ps.1 ≤ t) _ risky_ports
  · intro hsuf fp tp
    unfold rangeIssues
    rw [if_neg h0, if_neg (by simp [hsuf])]

/-- Witness for C3 amended: source "10.0.0.0/16" with bounds [3306, 3306]
yields exactly the MySQL MEDIUM issue, while the identical rule with
source "10.0.0.0/15" yields zero issues. -/
theorem c3_amended_medium_large_blocks_witness :
    rangeIssues ("sg-1") ("db") ("tcp") (some 3306) (some 3306) ("10.0.0.0/16") =
      [{ severity := "MEDIUM", sg_id := "sg-1", sg_name := "db",
         protocol := "tcp", port := "3306 (MySQL)", source := "10.0.0.0/16",
         description := "MySQL exposed to large CIDR block" }] ∧
    rangeIssues ("sg-1") ("db") ("tcp") (some 3306) (some 3306) ("10.0.0.0/15") = [] := by
  constructor
  · rw [(c3_amended_medium_large_blocks ("sg-1") ("db") ("tcp") 3306 3306
      ("10.0.0.0/16") (by decide)).1 (by decide) (by norm_num) (by norm_num)]
    decide
  · exact (c3_amended_medium_large_blocks ("sg-1") ("db") ("tcp") 3306 3306
      ("10.0.0.0/15") (by decide)).2 (by decide) (some 3306) (some 3306)

/-- C4: for every parsed CIDR with prefix p and every positive count with
p + ceilLog2 count ≤ 28, the splitter returns the new prefix
p + ceilLog2 count (equal to p when count = 1, since ceilLog2 1 = 0) and
exactly the first count subnets of that prefix length under the original
network — the i-th at address addr + i·2^(32-q) — each carrying the
usable host count 2^(32-q) - 2; the address sequence is strictly
ascending (netkit.py lines 457-476). -/
theorem c4_split_ok (s : String) (nw : Ipv4Network) (count : Nat)
    (hparse : parseCidr s = some nw) (_hpos : 0 < count)
    (hbound : nw.plen + ceilLog2 count ≤ 28) :
    calculateSubnets s count =
      .ok (nw.plen + ceilLog2 count,
        (List.range count).map fun i =>
          (⟨nw.addr + i * 2 ^ (32 - (nw.plen + ceilLog2 count)),
            nw.plen + ceilLog2 count,
            (2 : Int) ^ (32 - (nw.plen + ceilLog2 count)) - 2⟩ : SubnetAllocation)) ∧
    ((List.range count).map fun i =>
        (⟨nw.addr + i * 2 ^ (32 - (nw.plen + ceilLog2 count)),
          nw.plen + ceilLog2 count,
          (2 : Int) ^ (32 - (nw.plen + ceilLog2 count)) - 2⟩ : SubnetAllocation)).Pairwise
      (fun a b => a.addr < b.addr) := by
  have hcount : count ≤ 2 ^ ceilLog2 count := ceilLog2_le_pow count
  constructor
  · unfold calculateSubnets
    rw [hparse]
    simp only [gt_iff_lt]
    rw [if_neg (by omega)]
    congr 1
    rw [← List.map_take, List.take_range, Nat.min_eq_left hcount]
  · rw [List.pairwise_map]
    refine List.Pairwise.imp ?_ (List.pairwise_lt_range count)
    intro i j hij
    have hstep : 0 < 2 ^ (32 - (nw.plen + ceilLog2 count)) := Nat.two_pow_pos _
    exact Nat.add_lt_add_left (Nat.mul_lt_mul_of_lt_of_le hij (Nat.le_refl _) hstep) _

/-- Witness for C4: split("10.0.0.0/16", 4) yields /18 and the four /18
subnets 10.0.0.0, 10.0.64.0, 10.0.128.0, 10.0.192.0 with 16382 hosts
each, and split("10.0.0.0/16", 1) keeps the original /16 prefix. -/
theorem c4_split_ok_witness :
    calculateSubnets ("10.0.0.0/16") 4 =
      .ok (18, [(⟨167772160, 18, 16382⟩ : SubnetAllocation),
                (⟨167788544, 18, 16382⟩ : SubnetAllocation),
                (⟨167804928, 18, 16382⟩ : SubnetAllocation),
                (⟨167821312, 18, 16382⟩ : SubnetAllocation)]) ∧
    calculateSubnets ("10.0.0.0/16") 1 =
      .ok (16, [(⟨167772160, 16, 65534⟩ : SubnetAllocation)]) := by
  constructor
  · rw [(c4_split_ok ("10.0.0.0/16") (⟨167772160, 16⟩ : Ipv4Network) 4
      (by decide) (by norm_num) (by decide)).1]
    rfl
  · rw [(c4_split_ok ("10.0.0.0/16") (⟨167772160, 16⟩ : Ipv4Network) 1
      (by decide) (by norm_num) (by decide)).1]
    rfl

/-- C5: for every parsed CIDR and count whose computed new prefix
p + ceilLog2 count exceeds 28, the splitter fails with the LimitExceeded
error whose message states both the computed prefix and the fixed /28
ceiling, the command exits nonzero, and no subnet allocation is produced
(the result carries no allocation list) — netkit.py lines 458-463. -/
theorem c5_split_limit (s : String) (nw : Ipv4Network) (count : Nat)
    (hparse : parseCidr s = some nw)
    (hover : 28 < nw.plen + ceilLog2 count) :
    calculateSubnets s count =
      .error (.limitExceeded
        ("Too many subnets - would result in /" ++
          toString (nw.plen + ceilLog2 count) ++ " (max /28)")) ∧
    splitExit (calculateSubnets s count) = 1 := by
  have h : calculateSubnets s count =
      .error (.limitExceeded
        ("Too many subnets - would result in /" ++
          toString (nw.plen + ceilLog2 count) ++ " (max /28)")) := by
    unfold calculateSubnets
    rw [hparse]
    simp only [gt_iff_lt]
    rw [if_pos (by omega)]
  exact ⟨h, by rw [h]; rfl⟩

/-- Witness for C5: split("10.0.0.0/24", 20) computes /29
(ceilLog2 20 = 5) and fails with the LimitExceeded message naming /29 and
the /28 ceiling. -/
theorem c5_split_limit_witness :
    calculateSubnets ("10.0.0.0/24") 20 =
      .error (.limitExceeded ("Too many subnets - would result in /29 (max /28)")) ∧
    splitExit (calculateSubnets ("10.0.0.0/24") 20) = 1 :=
  c5_split_limit ("10.0.0.0/24") (⟨167772160, 24⟩ : Ipv4Network) 20
    (by decide) (by decide)

/-- C6: in strict mode the compliance exit status is 2 as soon as one
CRITICAL issue exists (whatever the HIGH and MEDIUM counts), else 1 when
a HIGH issue exists, else 0; without strict mode it is always 0
(netkit.py lines 191-196). -/
theorem c6_exit_policy (issues : List Issue) :
    (complianceExit false issues = 0) ∧
    ((∃ i ∈ issues, i.severity = "CRITICAL") → complianceExit true issues = 2) ∧
    ((∀ i ∈ issues, i.severity ≠ "CRITICAL") → (∃ i ∈ issues, i.severity = "HIGH") →
      complianceExit true issues = 1) ∧
    ((∀ i ∈ issues, i.severity ≠ "CRITICAL") → (∀ i ∈ issues, i.severity ≠ "HIGH") →
      complianceExit true issues = 0) := by
  refine ⟨rfl, ?_, ?_, ?_⟩
  · rintro ⟨i, hi, hsev⟩
    have hc : countSeverity issues ("CRITICAL") > 0 :=
      List.countP_pos_iff.mpr ⟨i, hi, by simp [hsev]⟩
    simp [complianceExit, hc]
  · intro hnc hh
    have hc : countSeverity issues ("CRITICAL") = 0 :=
      List.countP_eq_zero.mpr fun i hi => by simpa using hnc i hi
    obtain ⟨i, hi, hsev⟩ := hh
    have hhp : countSeverity issues ("HIGH") > 0 :=
      List.countP_pos_iff.mpr ⟨i, hi, by simp [hsev]⟩
    simp [complianceExit, hc, hhp]
  · intro hnc hnh
    have hc : countSeverity issues ("CRITICAL") = 0 :=
      List.countP_eq_zero.mpr fun i hi => by simpa using hnc i hi
    have hh : countSeverity issues ("HIGH") = 0 :=
      List.countP_eq_zero.mpr fun i hi => by simpa using hnh i hi
    simp [complianceExit, hc, hh]

/-- Witness for C6: a CRITICAL plus a MEDIUM issue exit 2 in strict mode,
a lone HIGH exits 1, a lone MEDIUM exits 0, and non-strict mode exits 0
even with a CRITICAL issue present. -/
theorem c6_exit_policy_witness :
    complianceExit false
        [{ severity := "CRITICAL", sg_id := "a", sg_name := "b",
           protocol := "ALL", port := "ALL", source := "0.0.0.0/0",
           description := "d" }] = 0 ∧
    complianceExit true
        [{ severity := "CRITICAL", sg_id := "a", sg_name := "b",
           protocol := "ALL", port := "ALL", source := "0.0.0.0/0",
           description := "d" },
         { severity := "MEDIUM", sg_id := "a", sg_name := "b", protocol := "tcp",
           port := "3306 (MySQL)", source := "10.0.0.0/16", description := "d" }] = 2 ∧
    complianceExit true
        [{ severity := "HIGH", sg_id := "a", sg_name := "b",
           protocol := "tcp", port := "22 (SSH)", source := "0.0.0.0/0",
           description := "d" }] = 1 ∧
    complianceExit true
        [{ severity := "MEDIUM", sg_id := "a", sg_name := "b",
           protocol := "tcp", port := "3306 (MySQL)", source := "10.0.0.0/16",
           description := "d" }] = 0 := by
  refine ⟨(c6_exit_policy _).1, ?_, ?_, ?_⟩
  · exact (c6_exit_policy _).2.1 ⟨_, List.mem_cons_self _ _, rfl⟩
  · exact (c6_exit_policy _).2.2.1 (by decide) ⟨_, List.mem_cons_self _ _, rfl⟩
  · exact (c6_exit_policy _).2.2.2 (by decide) (by decide)

/-- C7: for every input sequence of security groups, the classification
output is sorted by severity rank (CRITICAL = 0 < HIGH = 1 < MEDIUM = 2)
and the sort is stable: for each rank, the issues of that rank keep their
encounter order from the unsorted pass; in particular a CRITICAL issue
always precedes a MEDIUM one whatever their generation order
(netkit.py lines 150-151). -/
theorem c7_sorted_stable (sgs : List SecurityGroup) :
    (classifyIssues sgs).Pairwise (fun a b => severityRank a ≤ severityRank b) ∧
    ∀ r : Nat, (classifyIssues sgs).filter (fun i => severityRank i == r) =
      (collectIssues sgs).filter (fun i => severityRank i == r) := by
  exact ⟨sortIssues_sorted (collectIssues sgs),
    fun r => sortIssues_filter_rank (collectIssues sgs) r⟩

/-- C8: for every CIDR string the parser rejects and every count, the
splitter fails with the InvalidInput error and a nonzero exit status,
producing no allocation (the parse failure precedes every computation) —
netkit.py lines 451-455. -/
theorem c8_invalid_cidr (s : String) (count : Nat) (h : parseCidr s = none) :
    calculateSubnets s count = .error .invalidInput ∧
    splitExit (calculateSubnets s count) ≠ 0 := by
  have h1 : calculateSubnets s count = .error .invalidInput := by
    unfold calculateSubnets
    rw [h]
  exact ⟨h1, by rw [h1]; simp [splitExit]⟩

/-- Witness for C8: split("not-a-cidr", 2) fails with InvalidInput and a
nonzero exit status rather than crashing. -/
theorem c8_invalid_cidr_witness :
    calculateSubnets ("not-a-cidr") 2 = .error .invalidInput ∧
    splitExit (calculateSubnets ("not-a-cidr") 2) ≠ 0 :=
  c8_invalid_cidr ("not-a-cidr") 2 (by decide)

/-- C9: a fromPort equal to 0 is treated like an absent bound, because the
guards test Python truthiness rather than key presence: whatever the
source CIDR, protocol and toPort, such a pair yields no HIGH and no
MEDIUM issue, and classifies exactly as if fromPort were absent
(netkit.py lines 104-139). -/
theorem c9_zero_from_port (sg_id sg_name protocol : String)
    (to_port : Option Int) (cidr : String) :
    (rangeIssues sg_id sg_name protocol (some 0) to_port cidr).filter
        (fun i => i.severity == "HIGH" || i.severity == "MEDIUM") = [] ∧
    rangeIssues sg_id sg_name protocol (some 0) to_port cidr =
      rangeIssues sg_id sg_name protocol none to_port cidr := by
  constructor
  · unfold rangeIssues
    split
    · split
      · simp
      · simp [pyTruthy]
    · split
      · simp [pyTruthy]
      · simp
  · unfold rangeIssues
    simp [pyTruthy]

/-- C10: classification inspects only the IPv4 source ranges of a rule:
whenever every rule of every group has an empty IpRanges list — for
example rules whose only sources are IPv6 ranges such as ::/0 —
classification yields zero issues, whatever the protocols, port bounds
and Ipv6Ranges contents (netkit.py lines 104-110). -/
theorem c10_ipv6_only (sgs : List SecurityGroup)
    (h : ∀ sg ∈ sgs, ∀ rule ∈ sg.ipPermissions, rule.ipRanges = []) :
    classifyIssues sgs = [] := by
  have hc : collectIssues sgs = [] := by
    unfold collectIssues sgIssues ruleIssues
    rw [List.flatMap_eq_nil_iff]
    intro sg hsg
    rw [List.flatMap_eq_nil_iff]
    intro rule hrule
    rw [h sg hsg rule hrule]
    rfl
  unfold classifyIssues sortIssues
  rw [hc, List.mergeSort_nil]

/-- Witness for C10: a group whose sole rule allows all traffic from ::/0
(IPv6 only, empty IpRanges) classifies to zero issues. -/
theorem c10_ipv6_only_witness :
    classifyIssues
        [{ groupId := "sg-1", groupName := "v6",
           ipPermissions :=
             [{ ipProtocol := some ("-1"), fromPort := some 22,
                toPort := some 22, ipRanges := [], ipv6Ranges := ["::/0"] }] }] = [] :=
  c10_ipv6_only _ (by decide)

end Netkit
